import Mathlib

/-!
Verification of the data pipeline and forecast pipeline of `src/main.py`
(PH vaccine tracker).

Shallow embedding conventions:
* calendar dates are day numbers in `ℤ` (pandas `Timedelta(days=1)` is `+ 1`);
* numeric cells are `ℚ` (pandas float columns; the loaded counts);
* a missing cell (pandas `NaN`) is `Option.none`;
* Python `max(...)` over an empty collection raises, so operations built on
  it return `Option`/`Except`;
* `int(...)` on a one-element pandas Series extracts the value truncated
  toward zero; on a Series of any other length it raises (`TypeError`).
The exponential-smoothing model (statsmodels `ExponentialSmoothing`) is an
external library, treated as a black box: a fit either fails (the library
raises its own exception) or yields a deterministic projection function.
-/

/-- One row of the source CSV restricted to the columns the program uses
(`iso_code`, `date`, `people_vaccinated`, `people_fully_vaccinated`).
A `none` count is a missing cell. -/
structure CsvRow where
  iso_code : String
  date : ℤ
  people_vaccinated : Option ℚ
  people_fully_vaccinated : Option ℚ
deriving DecidableEq, Repr

/-- A cleaned record of the loaded series (after forward fill no field can
be missing, so both counts are total). -/
structure VaccRecord where
  date : ℤ
  people_vaccinated : ℚ
  people_fully_vaccinated : ℚ
deriving DecidableEq, Repr

/-- Constant `country_filter = "PHL"` — `src/main.py` line 18. -/
def country_filter : String := "PHL"

/-- Pandas `Series.ffill` (`src/main.py` lines 29-30): each missing cell
becomes the carried last seen value; a present cell replaces the carry.
The initial carry is `none` (a leading gap stays missing). -/
def ffillCol (carry : Option ℚ) : List (Option ℚ) → List (Option ℚ)
  | [] => []
  | some v :: rest => some v :: ffillCol (some v) rest
  | none :: rest => carry :: ffillCol carry rest

/-- Pandas `DataFrame.fillna(0)` (`src/main.py` line 33) on one column. -/
def fillna0 (xs : List (Option ℚ)) : List ℚ := xs.map (fun x => x.getD 0)

/-- Function `load_data` (`src/main.py` lines 8-35): filter rows to the country
code, project the three columns, forward-fill each count column
independently, then replace the remaining missing cells with 0.  The code
performs no sort: row order is preserved from the input. -/
def load_data (rows : List CsvRow) : List VaccRecord :=
  let vaccination := rows.filter (fun r => r.iso_code == country_filter)
  let dates := vaccination.map (fun r => r.date)
  let pv := fillna0 (ffillCol none (vaccination.map (fun r => r.people_vaccinated)))
  let pfv := fillna0 (ffillCol none (vaccination.map (fun r => r.people_fully_vaccinated)))
  (dates.zip (pv.zip pfv)).map
    (fun x => { date := x.1, people_vaccinated := x.2.1, people_fully_vaccinated := x.2.2 })

/-- The loader error taxonomy named by the spec (§7).  `src/main.py` never
raises either of these: the zero-match filter path simply produces an
empty frame. -/
inductive LoadError
  | DataUnavailableError
  | NoDataForCountryError
deriving DecidableEq, Repr

/-- Function `load_data` seen as a fallible computation.  The source has no raise
statement on the filter path, so the result is always `Except.ok`. -/
def load_dataE (rows : List CsvRow) : Except LoadError (List VaccRecord) :=
  Except.ok (load_data rows)

/-- Constant `population = 111265058` — `src/main.py` line 41. -/
def population : ℤ := 111265058

/-- Constant `herd_immunity_factor = 0.7` — `src/main.py` line 42. -/
def herd_immunity_factor : ℚ := 7 / 10

/-- Constant `target_vaccination = round(population * herd_immunity_factor)` —
`src/main.py` line 43.  (The Python float product of `111265058 * 0.7`
rounds to the same integer as the exact rational product: the fractional
part is 0.6, nowhere near a rounding tie.) -/
def target_vaccination : ℤ := round ((population : ℚ) * herd_immunity_factor)

/-- Function `initialize_population_statistics` (`src/main.py` lines 39-44).
These are module constants computed once; nothing in the program writes
to them. -/
def initialize_population_statistics : ℤ × ℚ × ℤ :=
  (population, herd_immunity_factor, target_vaccination)

/-- Python `int(...)` applied to a rational: truncation toward zero. -/
def pyInt (q : ℚ) : ℤ := q.num.tdiv q.den

/-- Function `get_latest_numbers` (`src/main.py` lines 48-54): `max` of the date
column (raises on an empty series, hence `none`), then the rows carrying
that date, then `int(...)` of each count column — which only succeeds
when that selection has exactly one row. -/
def get_latest_numbers (vaccination : List VaccRecord) : Option (ℤ × ℤ × ℤ) :=
  match (vaccination.map (fun r => r.date)).max? with
  | none => none
  | some recent_date =>
    match vaccination.filter (fun r => r.date == recent_date) with
    | [r] => some (recent_date, pyInt r.people_vaccinated, pyInt r.people_fully_vaccinated)
    | _ => none

/-- The failure points of `predictive_analytics`.  The source defines no
error class of its own: `emptySeries` is the `ValueError` of `max` on an
empty series (line 102), `modelFailure` is whatever exception the
statsmodels library raises from `HWES(...)`/`fit` (lines 115-127), and
`emptyPredictions` is the `ValueError` of `max` on an empty filtered
prediction frame (line 147).  `insufficientData` is the named
`InsufficientDataError` that the spec (§7) prescribes; the source never
produces it — it is declared here only so statements can distinguish the
named error from the library's generic failure. -/
inductive PipeError
  | emptySeries
  | modelFailure
  | emptyPredictions
  | insufficientData
deriving DecidableEq, Repr

deriving instance DecidableEq for Except

/-- The black-box exponential-smoothing capability (statsmodels `HWES`
with additive trend, multiplicative seasonal, daily frequency, fixed
smoothing weights).  Given the endogenous value list, fitting either
fails — the library raises its own exception, `none` — or yields a
deterministic projection `f`, where `f i` is the forecast `i + 1` days
past the end of the data (`model_fit.forecast(h)` returns `f 0 .. f (h-1)`). -/
structure HWModel where
  fit : List ℚ → Option (ℕ → ℚ)

/-- Constant `forecast_horizon = 1000` — `src/main.py` line 99. -/
def forecast_horizon : ℕ := 1000

/-- Lines 98-137 of `src/main.py`: `train_end = max(date)` (raises on an
empty series), drop the rows whose `people_fully_vaccinated` is exactly 0,
fit the model on the remaining counts, and zip the date range
`train_end + 1 .. train_end + forecast_horizon` with the forecast values.
Returns `(train_end, predictions)`. -/
def make_predictions (series : List VaccRecord) (m : HWModel) :
    Except PipeError (ℤ × List (ℤ × ℚ)) :=
  match (series.map (fun r => r.date)).max? with
  | none => Except.error PipeError.emptySeries
  | some train_end =>
    let nonzero := series.filter (fun r => r.people_fully_vaccinated != 0)
    match m.fit (nonzero.map (fun r => r.people_fully_vaccinated)) with
    | none => Except.error PipeError.modelFailure
    | some f =>
      let prediction_date_range :=
        (List.range forecast_horizon).map (fun i : ℕ => train_end + 1 + (i : ℤ))
      let prediction_values := (List.range forecast_horizon).map f
      Except.ok (train_end, prediction_date_range.zip prediction_values)

/-- Lines 142-147 of `src/main.py`: keep the predicted points strictly
below the target, then `herd_immunity_date = max(index) + 1 day` — which
raises when the filter keeps nothing. -/
def herd_immunity_date (predictions : List (ℤ × ℚ)) (target : ℚ) :
    Except PipeError ℤ :=
  let below := predictions.filter (fun p => decide (p.2 < target))
  match (below.map (fun p => p.1)).max? with
  | none => Except.error PipeError.emptyPredictions
  | some d => Except.ok (d + 1)

/-- The forecast pipeline of `predictive_analytics` (`src/main.py`
lines 93-147), from the loaded series, the black-box model and the
target to the prediction frame and the herd-immunity date. -/
def predictive_analytics (series : List VaccRecord) (m : HWModel) (target : ℚ) :
    Except PipeError (List (ℤ × ℚ) × ℤ) :=
  match make_predictions series m with
  | Except.error e => Except.error e
  | Except.ok (_, predictions) =>
    match herd_immunity_date predictions target with
    | Except.error e => Except.error e
    | Except.ok d => Except.ok (predictions, d)

/-- The herd-immunity component of the pipeline result. -/
def herdResult (x : Except PipeError (List (ℤ × ℚ) × ℤ)) : Except PipeError ℤ :=
  Except.map (fun p => p.2) x

/-- The derivation the spec prescribes (§3, §4.3): scan the forecast in
date order and return the first date whose predicted value is at or above
the target, `none` when no point of the horizon reaches it.  Stated from
the spec's words, to be compared with `herd_immunity_date` taken from the
source. -/
def firstAtOrAbove (predictions : List (ℤ × ℚ)) (target : ℚ) : Option ℤ :=
  ((predictions.filter (fun p => decide (target ≤ p.2))).head?).map (fun p => p.1)

/-- A stand-in instance of the black-box model used to evaluate the
pipeline on concrete inputs: fitting an empty observation list fails (as
any fit must), and a non-empty fit projects the constant 0 — a value
pattern the real seasonal model can also produce; only the failure shape
and the projected values matter to the statements below, never the
model's internals. -/
def hwesStub : HWModel :=
  { fit := fun ys => if ys.isEmpty then none else some (fun _ => 0) }

/-- The spec's words for the fill step (§4.1 step 6): the nearest
preceding non-missing value of a column before position `i` — scan the
cells before `i` backwards and take the first present one. -/
def nearestPreceding (xs : List (Option ℚ)) (i : ℕ) : Option ℚ :=
  ((xs.take i).reverse).findSome? id

/-! ### Helper lemmas: `List.max?` on integers -/

lemma foldl_max_le (t : List ℤ) (a : ℤ) :
    a ≤ t.foldl max a ∧ ∀ x ∈ t, x ≤ t.foldl max a := by
  induction t generalizing a with
  | nil => exact ⟨le_refl a, by simp⟩
  | cons b t ih =>
    obtain ⟨h1, h2⟩ := ih (max a b)
    rw [List.foldl_cons]
    refine ⟨le_trans (le_max_left a b) h1, ?_⟩
    intro x hx
    rcases List.mem_cons.mp hx with rfl | hx
    · exact le_trans (le_max_right a x) h1
    · exact h2 x hx

lemma foldl_max_mem (t : List ℤ) (a : ℤ) : t.foldl max a = a ∨ t.foldl max a ∈ t := by
  induction t generalizing a with
  | nil => exact Or.inl rfl
  | cons b t ih =>
    rw [List.foldl_cons]
    rcases ih (max a b) with h | h
    · rcases max_choice a b with hab | hab
      · exact Or.inl (h.trans hab)
      · exact Or.inr (by rw [h, hab]; exact List.mem_cons_self b t)
    · exact Or.inr (List.mem_cons_of_mem b h)

lemma int_max?_spec (l : List ℤ) (hne : l ≠ []) :
    ∃ d, l.max? = some d ∧ d ∈ l ∧ ∀ x ∈ l, x ≤ d := by
  match l, hne with
  | a :: t, _ =>
    refine ⟨t.foldl max a, rfl, ?_, ?_⟩
    · rcases foldl_max_mem t a with h | h
      · rw [h]; exact List.mem_cons_self a t
      · exact List.mem_cons_of_mem a h
    · intro x hx
      rcases List.mem_cons.mp hx with rfl | hx
      · exact (foldl_max_le t x).1
      · exact (foldl_max_le t a).2 x hx

lemma int_max?_eq_getLast :
    ∀ (l : List ℤ) (hne : l ≠ []), l.Pairwise (· < ·) → l.max? = some (l.getLast hne)
  | [], hne, _ => absurd rfl hne
  | [a], _, _ => rfl
  | a :: b :: t, _, h => by
    have hab : a < b := (List.pairwise_cons.mp h).1 b (List.mem_cons_self b t)
    have h2 : (b :: t).Pairwise (· < ·) := (List.pairwise_cons.mp h).2
    have hstep : (a :: b :: t).max? = (b :: t).max? := by
      show some ((b :: t).foldl max a) = some (t.foldl max b)
      rw [List.foldl_cons, max_eq_right hab.le]
    rw [hstep, int_max?_eq_getLast (b :: t) (List.cons_ne_nil b t) h2,
      List.getLast_cons (List.cons_ne_nil b t)]

/-! ### Helper lemmas: the fill step of the loader -/

lemma ffillCol_length (c : Option ℚ) (xs : List (Option ℚ)) :
    (ffillCol c xs).length = xs.length := by
  induction xs generalizing c with
  | nil => rfl
  | cons x t ih => cases x <;> simp [ffillCol, ih]

lemma fillna0_length (xs : List (Option ℚ)) : (fillna0 xs).length = xs.length := by
  simp [fillna0]

lemma ffillCol_cons (c : Option ℚ) (x : Option ℚ) (t : List (Option ℚ)) :
    ffillCol c (x :: t) = (x.or c) :: ffillCol (x.or c) t := by
  cases x <;> rfl

lemma findSome?_id_singleton (x : Option ℚ) : List.findSome? id [x] = x := by
  cases x <;> rfl

lemma fill_getElem? :
    ∀ (xs : List (Option ℚ)) (c : Option ℚ) (i : ℕ), i < xs.length →
      (fillna0 (ffillCol c xs))[i]? =
        some (((((xs.take (i + 1)).reverse).findSome? id).or c).getD 0)
  | [], _, i, h => absurd h (by simp)
  | x :: t, c, 0, _ => by
    cases x <;> simp [fillna0, ffillCol, findSome?_id_singleton]
  | x :: t, c, i + 1, h => by
    have hlt : i < t.length := by simpa using h
    have ih := fill_getElem? t (x.or c) i hlt
    rw [ffillCol_cons]
    rw [show fillna0 ((x.or c) :: ffillCol (x.or c) t)
        = ((x.or c).getD 0) :: fillna0 (ffillCol (x.or c) t) from rfl]
    rw [List.getElem?_cons_succ, ih, List.take_succ_cons, List.reverse_cons,
      List.findSome?_append, findSome?_id_singleton, Option.or_assoc]

/-! ### Helper lemmas: the loader -/

lemma load_data_length (rows : List CsvRow) :
    (load_data rows).length = (rows.filter (fun r => r.iso_code == country_filter)).length := by
  unfold load_data
  simp [List.length_zip, ffillCol_length, fillna0_length]

lemma load_data_map_date (rows : List CsvRow) :
    (load_data rows).map (fun r => r.date) =
      (rows.filter (fun r => r.iso_code == country_filter)).map (fun r => r.date) := by
  unfold load_data
  rw [List.map_map]
  exact List.map_fst_zip
    ((rows.filter (fun r => r.iso_code == country_filter)).map (fun r => r.date))
    ((fillna0 (ffillCol none ((rows.filter (fun r => r.iso_code == country_filter)).map
        (fun r => r.people_vaccinated)))).zip
      (fillna0 (ffillCol none ((rows.filter (fun r => r.iso_code == country_filter)).map
        (fun r => r.people_fully_vaccinated)))))
    (by simp [List.length_zip, ffillCol_length, fillna0_length])

lemma load_data_get (rows : List CsvRow) (i : ℕ) (h : i < (load_data rows).length)
    (h1 : i < (rows.filter (fun r => r.iso_code == country_filter)).length)
    (h2 : i < (fillna0 (ffillCol none ((rows.filter (fun r => r.iso_code == country_filter)).map
      (fun r => r.people_vaccinated)))).length)
    (h3 : i < (fillna0 (ffillCol none ((rows.filter (fun r => r.iso_code == country_filter)).map
      (fun r => r.people_fully_vaccinated)))).length) :
    (load_data rows).get ⟨i, h⟩ =
      { date := ((rows.filter (fun r => r.iso_code == country_filter)).get ⟨i, h1⟩).date,
        people_vaccinated :=
          (fillna0 (ffillCol none ((rows.filter (fun r => r.iso_code == country_filter)).map
            (fun r => r.people_vaccinated)))).get ⟨i, h2⟩,
        people_fully_vaccinated :=
          (fillna0 (ffillCol none ((rows.filter (fun r => r.iso_code == country_filter)).map
            (fun r => r.people_fully_vaccinated)))).get ⟨i, h3⟩ } := by
  simp only [load_data, List.get_eq_getElem, List.getElem_map, List.getElem_zip]

lemma fill_spec_cases (xs : List (Option ℚ)) (i : ℕ) (h : i < xs.length)
    (hfl : i < (fillna0 (ffillCol none xs)).length) :
    (∀ v, xs.get ⟨i, h⟩ = some v → (fillna0 (ffillCol none xs)).get ⟨i, hfl⟩ = v) ∧
    (xs.get ⟨i, h⟩ = none →
      (fillna0 (ffillCol none xs)).get ⟨i, hfl⟩ = (nearestPreceding xs i).getD 0) := by
  have hval : (fillna0 (ffillCol none xs)).get ⟨i, hfl⟩ =
      ((((xs.take (i + 1)).reverse).findSome? id).or none).getD 0 := by
    have hq := fill_getElem? xs none i h
    rw [List.getElem?_eq_getElem hfl] at hq
    exact Option.some.inj hq
  rw [Option.or_none] at hval
  have htake : (xs.take (i + 1)).reverse = xs.get ⟨i, h⟩ :: (xs.take i).reverse := by
    rw [List.take_succ, List.getElem?_eq_getElem h]
    simp [List.reverse_append]
  constructor
  · intro v hv
    rw [hval, htake, hv]
    rfl
  · intro hv
    rw [hval, htake, hv]
    rw [show List.findSome? id (none :: (xs.take i).reverse) = nearestPreceding xs i from rfl]

/-! ### Helper lemmas: `get_latest_numbers` -/

lemma pyInt_intCast (n : ℤ) : pyInt (n : ℚ) = n := by
  unfold pyInt
  rw [Rat.num_intCast, Rat.den_intCast]
  simp

lemma get_latest_eq (v : List VaccRecord) (d : ℤ) (r : VaccRecord)
    (hmax : (v.map (fun x => x.date)).max? = some d)
    (hfilt : v.filter (fun x => x.date == d) = [r]) :
    get_latest_numbers v =
      some (d, pyInt r.people_vaccinated, pyInt r.people_fully_vaccinated) := by
  simp only [get_latest_numbers, hmax, hfilt]

lemma filter_date_eq_singleton :
    ∀ (v : List VaccRecord) (d : ℤ),
      (v.map (fun r => r.date)).Pairwise (fun a b => a ≠ b) →
      ∀ r, r ∈ v → r.date = d →
      v.filter (fun x => x.date == d) = [r]
  | [], _, _, r, hr, _ => absurd hr (List.not_mem_nil r)
  | r0 :: t, d, hdist, r, hr, hd => by
    rw [List.map_cons, List.pairwise_cons] at hdist
    obtain ⟨hne0, hdist2⟩ := hdist
    by_cases h0 : r0.date = d
    · have ht : ∀ x ∈ t, ¬((x.date == d) = true) := by
        intro x hx hxd
        rw [beq_iff_eq] at hxd
        exact hne0 x.date (List.mem_map_of_mem (fun r => r.date) hx) (by rw [h0, hxd])
      have hr0 : r = r0 := by
        rcases List.mem_cons.mp hr with h | h
        · exact h
        · exact absurd (by simp [hd]) (ht r h)
      subst hr0
      rw [List.filter_cons_of_pos (by simp [h0]), List.filter_eq_nil_iff.mpr ht]
    · have hrt : r ∈ t := by
        rcases List.mem_cons.mp hr with h | h
        · exact absurd (h ▸ hd) h0
        · exact h
      rw [List.filter_cons_of_neg (by simp [h0])]
      exact filter_date_eq_singleton t d hdist2 r hrt hd

lemma get_latest_spec (v : List VaccRecord) (hne : v ≠ [])
    (hdist : (v.map (fun r => r.date)).Pairwise (fun a b => a ≠ b)) :
    ∃ r ∈ v, (∀ x ∈ v, x.date ≤ r.date) ∧
      get_latest_numbers v =
        some (r.date, pyInt r.people_vaccinated, pyInt r.people_fully_vaccinated) := by
  obtain ⟨d, hmax, hmem, hub⟩ := int_max?_spec (v.map (fun r => r.date))
    (by simpa using hne)
  obtain ⟨r, hrv, hrd⟩ := List.mem_map.mp hmem
  refine ⟨r, hrv, ?_, ?_⟩
  · intro x hx
    rw [hrd]
    exact hub x.date (List.mem_map_of_mem (fun r => r.date) hx)
  · rw [get_latest_eq v d r hmax (filter_date_eq_singleton v d hdist r hrv hrd), hrd]

lemma target_vaccination_eq : target_vaccination = 77885541 := by
  unfold target_vaccination population herd_immunity_factor
  rw [round_eq]
  norm_num

/-! ### Claims -/

/-- C9: the population statistics are computed once as the constants
`population = 111265058`, `herd_immunity_factor = 0.7`, and
`target_vaccination = round(population * herd_immunity_factor)`, which
equals exactly 77885541.  (The triple is a plain constant definition, so
nothing can mutate it.) -/
theorem C9_population_statistics :
    initialize_population_statistics = (111265058, 7 / 10, 77885541) := by
  unfold initialize_population_statistics population herd_immunity_factor
  rw [target_vaccination_eq]

/-- C4 counterexample: on a dataset whose country filter matches zero
rows, the loader does NOT fail with `NoDataForCountryError` — it returns
successfully (with the empty series). -/
theorem C4_counterexample :
    load_dataE [⟨"USA", 0, none, none⟩] = Except.ok [] ∧
    load_dataE [⟨"USA", 0, none, none⟩] ≠ Except.error LoadError.NoDataForCountryError := by
  decide

lemma load_data_nil_of_filter_nil (rows : List CsvRow)
    (h : rows.filter (fun r => r.iso_code == country_filter) = []) :
    load_data rows = [] := by
  simp [load_data, h]

/-- C4 (amended): for every input dataset whose country filter matches
zero rows, the loader raises nothing and returns the empty series; the
failure only surfaces downstream, e.g. `get_latest_numbers` fails on the
empty result. -/
theorem C4_empty_filter_yields_empty_series (rows : List CsvRow)
    (h : rows.filter (fun r => r.iso_code == country_filter) = []) :
    load_dataE rows = Except.ok [] ∧ get_latest_numbers (load_data rows) = none := by
  have hl : load_data rows = [] := load_data_nil_of_filter_nil rows h
  exact ⟨by simp [load_dataE, hl], by rw [hl]; rfl⟩

theorem C4_witness :
    (([⟨"USA", 3, some 1, some 1⟩] : List CsvRow).filter
      (fun r => r.iso_code == country_filter) = []) ∧
    (load_dataE [⟨"USA", 3, some 1, some 1⟩] = Except.ok [] ∧
      get_latest_numbers (load_data [⟨"USA", 3, some 1, some 1⟩]) = none) :=
  ⟨by decide, C4_empty_filter_yields_empty_series _ (by decide)⟩

/-- C2 counterexample: the loader does not sort — an input whose country
rows appear in decreasing date order yields an output whose dates are not
strictly increasing, refuting the claim for arbitrary row order. -/
theorem C2_counterexample :
    ¬ (((load_data [⟨"PHL", 5, some 1, some 1⟩, ⟨"PHL", 3, some 2, some 2⟩]).map
      (fun r => r.date)).Pairwise (fun a b => a < b)) := by
  decide

/-- C2 (amended): the loader preserves the input row order (it performs
no sort); whenever the input dataset's dates are strictly increasing, the
returned series' dates are strictly increasing as well. -/
theorem C2_loader_preserves_sorted_order (rows : List CsvRow)
    (h : (rows.map (fun r => r.date)).Pairwise (fun a b => a < b)) :
    ((load_data rows).map (fun r => r.date)).Pairwise (fun a b => a < b) := by
  rw [load_data_map_date]
  exact List.Pairwise.sublist
    (List.Sublist.map (fun r => r.date) (List.filter_sublist rows)) h

theorem C2_witness :
    ((([⟨"PHL", 1, some 1, some 1⟩, ⟨"PHL", 2, some 2, none⟩] : List CsvRow).map
      (fun r => r.date)).Pairwise (fun a b => a < b)) ∧
    ((load_data [⟨"PHL", 1, some 1, some 1⟩, ⟨"PHL", 2, some 2, none⟩]).map
      (fun r => r.date)).Pairwise (fun a b => a < b) :=
  ⟨by decide, C2_loader_preserves_sorted_order _ (by decide)⟩

/-- C10: `get_latest_numbers` succeeds only when exactly one record
carries the maximum date — whenever two or more records share the maximum
date, the `int(...)` conversion fails, so the one-record-per-day natural
key is a hard precondition. -/
theorem C10_duplicate_max_date_fails (series : List VaccRecord) (d : ℤ)
    (hmax : (series.map (fun r => r.date)).max? = some d)
    (hdup : 2 ≤ (series.filter (fun r => r.date == d)).length) :
    get_latest_numbers series = none := by
  rcases hfe : series.filter (fun r => r.date == d) with _ | ⟨a, _ | ⟨b, t⟩⟩
  · rw [hfe] at hdup
    simp at hdup
  · rw [hfe] at hdup
    simp at hdup
  · simp only [get_latest_numbers, hmax, hfe]

theorem C10_witness :
    ((([⟨4, 1, 2⟩, ⟨4, 7, 5⟩] : List VaccRecord).map (fun r => r.date)).max? = some 4) ∧
    2 ≤ (([⟨4, 1, 2⟩, ⟨4, 7, 5⟩] : List VaccRecord).filter (fun r => r.date == 4)).length ∧
    get_latest_numbers [⟨4, 1, 2⟩, ⟨4, 7, 5⟩] = none :=
  ⟨by decide, by decide, C10_duplicate_max_date_fails _ 4 (by decide) (by decide)⟩

/-- C5: for every non-empty series with single-record-per-day dates,
`get_latest_numbers` returns the record carrying the maximum date with
its two counts converted to integers; in particular a single-record
series with integral counts is returned unchanged. -/
theorem C5_latest_numbers_at_max_date (series : List VaccRecord) (hne : series ≠ [])
    (hdist : (series.map (fun r => r.date)).Pairwise (fun a b => a ≠ b)) :
    (∃ r ∈ series, (∀ x ∈ series, x.date ≤ r.date) ∧
      get_latest_numbers series =
        some (r.date, pyInt r.people_vaccinated, pyInt r.people_fully_vaccinated)) ∧
    (∀ (d n k : ℤ), series = [⟨d, (n : ℚ), (k : ℚ)⟩] →
      get_latest_numbers series = some (d, n, k)) := by
  constructor
  · exact get_latest_spec series hne hdist
  · intro d n k hs
    subst hs
    have h1 : (([⟨d, (n : ℚ), (k : ℚ)⟩] : List VaccRecord).map (fun r => r.date)).max?
        = some d := rfl
    have h2 : ([⟨d, (n : ℚ), (k : ℚ)⟩] : List VaccRecord).filter
        (fun r => r.date == d) = [⟨d, (n : ℚ), (k : ℚ)⟩] := by simp
    rw [get_latest_eq _ d ⟨d, (n : ℚ), (k : ℚ)⟩ h1 h2, pyInt_intCast, pyInt_intCast]

theorem C5_witness :
    (([⟨7, 5, 9⟩] : List VaccRecord) ≠ []) ∧
    ((([⟨7, 5, 9⟩] : List VaccRecord).map (fun r => r.date)).Pairwise
      (fun a b => a ≠ b)) ∧
    ((∃ r ∈ ([⟨7, 5, 9⟩] : List VaccRecord), (∀ x ∈ ([⟨7, 5, 9⟩] : List VaccRecord),
        x.date ≤ r.date) ∧
      get_latest_numbers [⟨7, 5, 9⟩] =
        some (r.date, pyInt r.people_vaccinated, pyInt r.people_fully_vaccinated)) ∧
    (∀ (d n k : ℤ), ([⟨7, 5, 9⟩] : List VaccRecord) = [⟨d, (n : ℚ), (k : ℚ)⟩] →
      get_latest_numbers [⟨7, 5, 9⟩] = some (d, n, k))) :=
  ⟨by decide, by decide, C5_latest_numbers_at_max_date _ (by decide) (by decide)⟩

/-- C3: after the loader's fill step each count column is independently
forward-filled — a present cell is unchanged, a missing cell becomes the
nearest preceding present cell of its own column, and a leading gap with
no prior value becomes zero (`nearestPreceding … = none`) — and the
result has one total record (no missing field) per filtered input row. -/
theorem C3_forward_fill_spec (rows : List CsvRow) :
    (load_data rows).length = (rows.filter (fun r => r.iso_code == country_filter)).length ∧
    ∀ i (h : i < (load_data rows).length)
      (h1 : i < (rows.filter (fun r => r.iso_code == country_filter)).length),
      ((load_data rows).get ⟨i, h⟩).date
          = ((rows.filter (fun r => r.iso_code == country_filter)).get ⟨i, h1⟩).date ∧
      (∀ v, ((rows.filter (fun r => r.iso_code == country_filter)).get
          ⟨i, h1⟩).people_vaccinated = some v →
        ((load_data rows).get ⟨i, h⟩).people_vaccinated = v) ∧
      (((rows.filter (fun r => r.iso_code == country_filter)).get
          ⟨i, h1⟩).people_vaccinated = none →
        ((load_data rows).get ⟨i, h⟩).people_vaccinated =
          (nearestPreceding ((rows.filter (fun r => r.iso_code == country_filter)).map
            (fun r => r.people_vaccinated)) i).getD 0) ∧
      (∀ v, ((rows.filter (fun r => r.iso_code == country_filter)).get
          ⟨i, h1⟩).people_fully_vaccinated = some v →
        ((load_data rows).get ⟨i, h⟩).people_fully_vaccinated = v) ∧
      (((rows.filter (fun r => r.iso_code == country_filter)).get
          ⟨i, h1⟩).people_fully_vaccinated = none →
        ((load_data rows).get ⟨i, h⟩).people_fully_vaccinated =
          (nearestPreceding ((rows.filter (fun r => r.iso_code == country_filter)).map
            (fun r => r.people_fully_vaccinated)) i).getD 0) := by
  refine ⟨load_data_length rows, ?_⟩
  intro i h h1
  have hm : i < ((rows.filter (fun r => r.iso_code == country_filter)).map
      (fun r => r.people_vaccinated)).length := by
    rw [List.length_map]; exact h1
  have hm2 : i < ((rows.filter (fun r => r.iso_code == country_filter)).map
      (fun r => r.people_fully_vaccinated)).length := by
    rw [List.length_map]; exact h1
  have h2 : i < (fillna0 (ffillCol none ((rows.filter (fun r => r.iso_code == country_filter)).map
      (fun r => r.people_vaccinated)))).length := by
    rw [fillna0_length, ffillCol_length]; exact hm
  have h3 : i < (fillna0 (ffillCol none ((rows.filter (fun r => r.iso_code == country_filter)).map
      (fun r => r.people_fully_vaccinated)))).length := by
    rw [fillna0_length, ffillCol_length]; exact hm2
  have hg := load_data_get rows i h h1 h2 h3
  have hmapv : ((rows.filter (fun r => r.iso_code == country_filter)).map
      (fun r => r.people_vaccinated)).get ⟨i, hm⟩
      = ((rows.filter (fun r => r.iso_code == country_filter)).get ⟨i, h1⟩).people_vaccinated := by
    simp [List.get_eq_getElem, List.getElem_map]
  have hmapf : ((rows.filter (fun r => r.iso_code == country_filter)).map
      (fun r => r.people_fully_vaccinated)).get ⟨i, hm2⟩
      = ((rows.filter (fun r => r.iso_code == country_filter)).get
          ⟨i, h1⟩).people_fully_vaccinated := by
    simp [List.get_eq_getElem, List.getElem_map]
  obtain ⟨hpv1, hpv2⟩ := fill_spec_cases ((rows.filter (fun r => r.iso_code == country_filter)).map
    (fun r => r.people_vaccinated)) i hm h2
  obtain ⟨hpf1, hpf2⟩ := fill_spec_cases ((rows.filter (fun r => r.iso_code == country_filter)).map
    (fun r => r.people_fully_vaccinated)) i hm2 h3
  rw [hg]
  refine ⟨rfl, ?_, ?_, ?_, ?_⟩
  · intro v hv
    exact hpv1 v (by rw [hmapv]; exact hv)
  · intro hv
    exact hpv2 (by rw [hmapv]; exact hv)
  · intro v hv
    exact hpf1 v (by rw [hmapf]; exact hv)
  · intro hv
    exact hpf2 (by rw [hmapf]; exact hv)

theorem C3_witness :
    ((load_data [⟨"PHL", 1, none, some 10⟩, ⟨"PHL", 2, some 4, none⟩]).length
      = (([⟨"PHL", 1, none, some 10⟩, ⟨"PHL", 2, some 4, none⟩] : List CsvRow).filter
          (fun r => r.iso_code == country_filter)).length) ∧
    ((load_data [⟨"PHL", 1, none, some 10⟩, ⟨"PHL", 2, some 4, none⟩]).get
        ⟨1, by decide⟩).people_fully_vaccinated =
      (nearestPreceding ((([⟨"PHL", 1, none, some 10⟩, ⟨"PHL", 2, some 4, none⟩] :
          List CsvRow).filter (fun r => r.iso_code == country_filter)).map
        (fun r => r.people_fully_vaccinated)) 1).getD 0 :=
  ⟨(C3_forward_fill_spec _).1,
   ((C3_forward_fill_spec [⟨"PHL", 1, none, some 10⟩, ⟨"PHL", 2, some 4, none⟩]).2
      1 (by decide) (by decide)).2.2.2.2 (by decide)⟩

/-- C6: for every non-empty series whose (zero-dropped) history the model
fits, the prediction frame has length exactly `forecast_horizon` and its
dates are the consecutive days `train_end + 1 … train_end +
forecast_horizon`, where `train_end` is the maximum (last observed)
input date. -/
theorem C6_forecast_series_shape (series : List VaccRecord) (m : HWModel) (f : ℕ → ℚ)
    (hne : series ≠ [])
    (hfit : m.fit ((series.filter (fun r => r.people_fully_vaccinated != 0)).map
      (fun r => r.people_fully_vaccinated)) = some f) :
    ∃ train_end preds,
      make_predictions series m = Except.ok (train_end, preds) ∧
      train_end ∈ series.map (fun r => r.date) ∧
      (∀ r ∈ series, r.date ≤ train_end) ∧
      preds.length = forecast_horizon ∧
      ∀ i (hi : i < preds.length), (preds.get ⟨i, hi⟩).1 = train_end + 1 + (i : ℤ) := by
  obtain ⟨d, hmax, hmem, hub⟩ := int_max?_spec (series.map (fun r => r.date))
    (by simpa using hne)
  refine ⟨d, ((List.range forecast_horizon).map (fun i : ℕ => d + 1 + (i : ℤ))).zip
    ((List.range forecast_horizon).map f), ?_, hmem, ?_, ?_, ?_⟩
  · simp only [make_predictions, hmax, hfit]
  · intro r hr
    exact hub r.date (List.mem_map_of_mem (fun r => r.date) hr)
  · rw [List.length_zip, List.length_map, List.length_map, List.length_range, min_self]
  · intro i hi
    simp only [List.get_eq_getElem, List.getElem_zip, List.getElem_map, List.getElem_range]

theorem C6_witness :
    (([⟨5, 1, 2⟩] : List VaccRecord) ≠ []) ∧
    hwesStub.fit ((([⟨5, 1, 2⟩] : List VaccRecord).filter
      (fun r => r.people_fully_vaccinated != 0)).map
      (fun r => r.people_fully_vaccinated)) = some (fun _ => 0) ∧
    (∃ train_end preds,
      make_predictions [⟨5, 1, 2⟩] hwesStub = Except.ok (train_end, preds) ∧
      train_end ∈ ([⟨5, 1, 2⟩] : List VaccRecord).map (fun r => r.date) ∧
      (∀ r ∈ ([⟨5, 1, 2⟩] : List VaccRecord), r.date ≤ train_end) ∧
      preds.length = forecast_horizon ∧
      ∀ i (hi : i < preds.length), (preds.get ⟨i, hi⟩).1 = train_end + 1 + (i : ℤ)) :=
  ⟨by decide, rfl, C6_forecast_series_shape _ hwesStub (fun _ => 0) (by decide) rfl⟩

lemma nonzero_filter_nil (series : List VaccRecord)
    (h0 : ∀ r ∈ series, r.people_fully_vaccinated = 0) :
    series.filter (fun r => r.people_fully_vaccinated != 0) = [] :=
  List.filter_eq_nil_iff.mpr (fun r hr => by simp [h0 r hr])

/-- C7 counterexample: on an all-zero fully-vaccinated history the
pipeline fails with the library's generic model failure — not with the
named `InsufficientDataError` the claim asserts — while
`get_latest_numbers` succeeds on the same series. -/
theorem C7_counterexample :
    predictive_analytics [⟨0, 0, 0⟩] hwesStub 77885541
        = Except.error PipeError.modelFailure ∧
    predictive_analytics [⟨0, 0, 0⟩] hwesStub 77885541
        ≠ Except.error PipeError.insufficientData ∧
    get_latest_numbers [⟨0, 0, 0⟩] = some (0, 0, 0) := by
  decide

/-- C7 (amended): the forecast pipeline drops every exactly-zero
fully-vaccinated row before fitting, so on an all-zero history the model
receives no observations and the pipeline fails with the library's
generic failure (the source defines no `InsufficientDataError`), while
`get_latest_numbers` still succeeds on the same series. -/
theorem C7_all_zero_history (series : List VaccRecord) (m : HWModel) (target : ℚ)
    (h0 : ∀ r ∈ series, r.people_fully_vaccinated = 0)
    (hne : series ≠ [])
    (hdist : (series.map (fun r => r.date)).Pairwise (fun a b => a ≠ b))
    (hm : m.fit [] = none) :
    predictive_analytics series m target = Except.error PipeError.modelFailure ∧
    predictive_analytics series m target ≠ Except.error PipeError.insufficientData ∧
    ∃ d n, get_latest_numbers series = some (d, n, 0) := by
  obtain ⟨dd, hmax, hmem, hub⟩ := int_max?_spec (series.map (fun r => r.date))
    (by simpa using hne)
  have hmp : make_predictions series m = Except.error PipeError.modelFailure := by
    simp only [make_predictions, hmax, nonzero_filter_nil series h0, List.map_nil, hm]
  have hpa : predictive_analytics series m target = Except.error PipeError.modelFailure := by
    simp only [predictive_analytics, hmp]
  refine ⟨hpa, by rw [hpa]; decide, ?_⟩
  obtain ⟨r, hrv, _, hlatest⟩ := get_latest_spec series hne hdist
  refine ⟨r.date, pyInt r.people_vaccinated, ?_⟩
  rw [hlatest, h0 r hrv]
  rfl

theorem C7_witness :
    (∀ r ∈ ([⟨0, 0, 0⟩, ⟨1, 3, 0⟩] : List VaccRecord), r.people_fully_vaccinated = 0) ∧
    (([⟨0, 0, 0⟩, ⟨1, 3, 0⟩] : List VaccRecord) ≠ []) ∧
    ((([⟨0, 0, 0⟩, ⟨1, 3, 0⟩] : List VaccRecord).map (fun r => r.date)).Pairwise
      (fun a b => a ≠ b)) ∧
    hwesStub.fit [] = none ∧
    (predictive_analytics [⟨0, 0, 0⟩, ⟨1, 3, 0⟩] hwesStub 5
        = Except.error PipeError.modelFailure ∧
      predictive_analytics [⟨0, 0, 0⟩, ⟨1, 3, 0⟩] hwesStub 5
        ≠ Except.error PipeError.insufficientData ∧
      ∃ d n, get_latest_numbers [⟨0, 0, 0⟩, ⟨1, 3, 0⟩] = some (d, n, 0)) :=
  ⟨by decide, by decide, by decide, rfl,
   C7_all_zero_history _ hwesStub 5 (by decide) (by decide) (by decide) rfl⟩

/-- C8: on a forecast of consecutive daily dates that is non-decreasing
at the crossing — every below-target point precedes every at-or-above
point, and both kinds exist — the source derivation (day after the last
below-target date) yields the same date as the spec's direct scan (first
date at or above the target). -/
theorem C8_filter_below_equals_first_at_or_above
    (l1 l2 : List (ℤ × ℚ)) (target : ℚ)
    (h1 : ∀ p ∈ l1, p.2 < target) (h2 : ∀ p ∈ l2, target ≤ p.2)
    (hne1 : l1 ≠ []) (hne2 : l2 ≠ [])
    (hconsec : List.Chain' (fun p q => q.1 = p.1 + 1) (l1 ++ l2)) :
    ∃ d, herd_immunity_date (l1 ++ l2) target = Except.ok d ∧
      firstAtOrAbove (l1 ++ l2) target = some d := by
  obtain ⟨hc1, hc2, hjoin⟩ := List.chain'_append.mp hconsec
  have hfb : (l1 ++ l2).filter (fun p => decide (p.2 < target)) = l1 := by
    rw [List.filter_append,
      List.filter_eq_self.mpr (fun p hp => decide_eq_true (h1 p hp)),
      List.filter_eq_nil_iff.mpr (fun p hp => by simp [not_lt.mpr (h2 p hp)]),
      List.append_nil]
  have hfa : (l1 ++ l2).filter (fun p => decide (target ≤ p.2)) = l2 := by
    rw [List.filter_append,
      List.filter_eq_nil_iff.mpr (fun p hp => by simp [not_le.mpr (h1 p hp)]),
      List.filter_eq_self.mpr (fun p hp => decide_eq_true (h2 p hp)),
      List.nil_append]
  have hchain1 : (l1.map (fun p => p.1)).Chain' (fun a b => a < b) := by
    rw [List.chain'_map]
    exact hc1.imp (fun a b hab => by rw [hab]; exact lt_add_one a.1)
  have hmne : l1.map (fun p => p.1) ≠ [] := by simpa using hne1
  have hmax : (l1.map (fun p => p.1)).max?
      = some ((l1.map (fun p => p.1)).getLast hmne) :=
    int_max?_eq_getLast _ hmne (List.chain'_iff_pairwise.mp hchain1)
  have hj : (l2.head hne2).1 = (l1.getLast hne1).1 + 1 :=
    hjoin (l1.getLast hne1) (by simp [List.getLast?_eq_getLast l1 hne1])
      (l2.head hne2) (by simp [List.head?_eq_head hne2])
  have hgl : (l1.map (fun p => p.1)).getLast hmne = (l1.getLast hne1).1 := by
    rw [List.getLast_map]
  refine ⟨(l2.head hne2).1, ?_, ?_⟩
  · have hherd : herd_immunity_date (l1 ++ l2) target
        = Except.ok ((l1.map (fun p => p.1)).getLast hmne + 1) := by
      simp only [herd_immunity_date, hfb, hmax]
    rw [hherd, hgl, ← hj]
  · unfold firstAtOrAbove
    rw [hfa, List.head?_eq_head hne2]
    rfl

theorem C8_witness :
    (∀ p ∈ ([((0 : ℤ), (0 : ℚ))] : List (ℤ × ℚ)), p.2 < 1) ∧
    (∀ p ∈ ([((1 : ℤ), (1 : ℚ))] : List (ℤ × ℚ)), (1 : ℚ) ≤ p.2) ∧
    List.Chain' (fun p q => q.1 = p.1 + 1)
      ([((0 : ℤ), (0 : ℚ))] ++ [((1 : ℤ), (1 : ℚ))]) ∧
    ∃ d, herd_immunity_date ([((0 : ℤ), (0 : ℚ))] ++ [((1 : ℤ), (1 : ℚ))]) 1
        = Except.ok d ∧
      firstAtOrAbove ([((0 : ℤ), (0 : ℚ))] ++ [((1 : ℤ), (1 : ℚ))]) 1 = some d :=
  ⟨by decide, by decide, by simp [List.chain'_cons],
   C8_filter_below_equals_first_at_or_above _ _ 1 (by decide) (by decide)
     (by decide) (by decide) (by simp [List.chain'_cons])⟩

lemma constzero_make_predictions :
    make_predictions [⟨0, 1, 1⟩] hwesStub
      = Except.ok (0,
          ((List.range forecast_horizon).map (fun i : ℕ => (0 : ℤ) + 1 + (i : ℤ))).zip
            ((List.range forecast_horizon).map (fun _ => (0 : ℚ)))) := rfl

lemma const_dates_max? :
    ((List.range forecast_horizon).map (fun i : ℕ => (0 : ℤ) + 1 + (i : ℤ))).max?
      = some 1000 := by
  obtain ⟨d, hmax, hmem, hub⟩ := int_max?_spec
    ((List.range forecast_horizon).map (fun i : ℕ => (0 : ℤ) + 1 + (i : ℤ)))
    (by simp [forecast_horizon])
  have hle : d ≤ 1000 := by
    obtain ⟨i, hi, hdi⟩ := List.mem_map.mp hmem
    have hi1000 : i < 1000 := List.mem_range.mp hi
    rw [← hdi]
    omega
  have hge : (1000 : ℤ) ≤ d := by
    apply hub
    exact List.mem_map.mpr ⟨999, List.mem_range.mpr (by norm_num [forecast_horizon]), by norm_num⟩
  rw [hmax]
  exact congrArg some (le_antisymm hle hge)

lemma herd_const_zero :
    herd_immunity_date
        (((List.range forecast_horizon).map (fun i : ℕ => (0 : ℤ) + 1 + (i : ℤ))).zip
          ((List.range forecast_horizon).map (fun _ => (0 : ℚ))))
        (target_vaccination : ℚ)
      = Except.ok 1001 := by
  have hall : (((List.range forecast_horizon).map (fun i : ℕ => (0 : ℤ) + 1 + (i : ℤ))).zip
      ((List.range forecast_horizon).map (fun _ => (0 : ℚ)))).filter
        (fun p => decide (p.2 < (target_vaccination : ℚ)))
      = ((List.range forecast_horizon).map (fun i : ℕ => (0 : ℤ) + 1 + (i : ℤ))).zip
        ((List.range forecast_horizon).map (fun _ => (0 : ℚ))) := by
    apply List.filter_eq_self.mpr
    intro p hp
    obtain ⟨a, b⟩ := p
    obtain ⟨-, hb⟩ := List.of_mem_zip hp
    obtain ⟨i, -, hbi⟩ := List.mem_map.mp hb
    apply decide_eq_true
    show b < (target_vaccination : ℚ)
    subst hbi
    rw [target_vaccination_eq]
    norm_num
  have hmapfst : ((((List.range forecast_horizon).map
        (fun i : ℕ => (0 : ℤ) + 1 + (i : ℤ))).zip
      ((List.range forecast_horizon).map (fun _ => (0 : ℚ)))).map (fun p => p.1))
      = (List.range forecast_horizon).map (fun i : ℕ => (0 : ℤ) + 1 + (i : ℤ)) :=
    List.map_fst_zip _ _ (by rw [List.length_map, List.length_map])
  simp only [herd_immunity_date, hall, hmapfst, const_dates_max?]
  norm_num

/-- C1 (code behaviour at the failing input): on a forecast run where no
point of the horizon reaches the target — constant-zero projections
against target 77885541 — the pipeline does not report "undetermined":
it returns the calendar date one day past the end of the horizon
(`train_end = 0`, horizon 1000, reported herd-immunity date 1001). -/
theorem C1_code_returns_date_when_target_unreached :
    herdResult (predictive_analytics [⟨0, 1, 1⟩] hwesStub (target_vaccination : ℚ))
      = Except.ok 1001 := by
  simp only [predictive_analytics, constzero_make_predictions, herd_const_zero,
    herdResult, Except.map]
